import Mathlib

/-!
# SmartSwitcher — verification of the layout-switcher core

Shallow embedding of the SmartSwitcher repository's layout-switcher module
(`src/modules/layout_switcher/src/lib.rs`) and the Windows platform layer
(`src/platform/src/windows.rs`).  Strings are modelled as `List Char`
(every buffered word consists of ASCII letters produced by `vk_to_letter`,
so Rust's byte length coincides with the character count).  The Rust code
compares `f32` vowel ratios (`vowels as f32 / letters as f32`) against the
decimal thresholds 0.15 / 0.70 / 0.20 / 0.25 / 0.45; this is modelled as
the exact rational comparison `vowels / letters ⋈ n / 100`, written with
cross-multiplied natural numbers so that everything is kernel-computable.
OS side effects are modelled by explicit environments describing the
outcome each OS query would have, and by traces of requested platform
calls and of the mutating inputs the program sends to the OS.
-/

namespace SmartSwitcher

/-- Substring test on character lists: `containsSub needle hay` is true iff
`needle` occurs contiguously inside `hay` (Rust `str::contains`). -/
def containsSub (needle : List Char) : List Char → Bool
  | [] => needle.isEmpty
  | c :: rest => needle.isPrefixOf (c :: rest) || containsSub needle rest

/-- Rust `char::is_ascii_uppercase`: code point in `A`–`Z`. -/
def isAsciiUpper (c : Char) : Bool :=
  65 ≤ c.toNat && c.toNat ≤ 90

/-- Rust `char::is_ascii_lowercase`: code point in `a`–`z`. -/
def isAsciiLower (c : Char) : Bool :=
  97 ≤ c.toNat && c.toNat ≤ 122

/-- Rust `char::is_ascii_alphabetic`. -/
def isAsciiAlpha (c : Char) : Bool :=
  isAsciiUpper c || isAsciiLower c

/-- Rust `char::to_ascii_lowercase`: shift `A`–`Z` down by 32, leave everything
else alone. -/
def toAsciiLower (c : Char) : Char :=
  if isAsciiUpper c then Char.ofNat (c.toNat + 32) else c

/-- Rust `char::to_ascii_uppercase`: shift `a`–`z` up by 32, leave everything
else alone. -/
def toAsciiUpper (c : Char) : Char :=
  if isAsciiLower c then Char.ofNat (c.toNat - 32) else c

/-- Rust `char::to_lowercase()` (simple Unicode lowercasing, which is 1-to-1 on
this repertoire), modelled on the characters this program manipulates: ASCII
letters and the full Cyrillic block U+0400–U+04FF — `А`–`Я` and `Ѐ`–`Џ` shift
into their lowercase rows, `Ѡ`…`Ҿ` and `Ӑ`…`Ӿ` pair even/odd, `Ӂ`…`Ӎ` pair
odd/even, and palochka U+04C0 maps to U+04CF; anything else (including all
characters that Unicode leaves unmapped) is returned unchanged. -/
def rustToLower (c : Char) : Char :=
  if 0x41 ≤ c.toNat && c.toNat ≤ 0x5A then Char.ofNat (c.toNat + 32)
  else if 0x400 ≤ c.toNat && c.toNat ≤ 0x40F then Char.ofNat (c.toNat + 80)
  else if 0x410 ≤ c.toNat && c.toNat ≤ 0x42F then Char.ofNat (c.toNat + 32)
  else if (0x460 ≤ c.toNat && c.toNat ≤ 0x480 ||
      0x48A ≤ c.toNat && c.toNat ≤ 0x4BE) && c.toNat % 2 = 0 then
    Char.ofNat (c.toNat + 1)
  else if c.toNat = 0x4C0 then Char.ofNat 0x4CF
  else if 0x4C1 ≤ c.toNat && c.toNat ≤ 0x4CD && c.toNat % 2 = 1 then
    Char.ofNat (c.toNat + 1)
  else if 0x4D0 ≤ c.toNat && c.toNat ≤ 0x4FE && c.toNat % 2 = 0 then
    Char.ofNat (c.toNat + 1)
  else c

/-- Rust `char::is_alphabetic`, restricted to the character repertoire this
program manipulates: ASCII letters plus the Cyrillic block U+0400–U+04FF
(whose only non-alphabetic code points are U+0482 and the combining marks
U+0483–U+0489). -/
def rustIsAlphabetic (c : Char) : Bool :=
  isAsciiAlpha c ||
    (0x400 ≤ c.toNat && c.toNat ≤ 0x4FF && c.toNat ≠ 0x482 &&
      !(0x483 ≤ c.toNat && c.toNat ≤ 0x489))

/-- English vowels (incl. `y`), both cases — the set matched in `en_vowel_ratio`. -/
def isEnVowel (c : Char) : Bool :=
  c ∈ ['a', 'e', 'i', 'o', 'u', 'y', 'A', 'E', 'I', 'O', 'U', 'Y']

/-- Russian vowels, both cases — the set matched in `ru_vowel_ratio`. -/
def isRuVowel (c : Char) : Bool :=
  c ∈ ['а', 'е', 'ё', 'и', 'о', 'у', 'ы', 'э', 'ю', 'я',
       'А', 'Е', 'Ё', 'И', 'О', 'У', 'Ы', 'Э', 'Ю', 'Я']

/-- Letter count of `en_vowel_ratio` from lib.rs (ASCII-alphabetic characters). -/
def enLetters (s : List Char) : Nat :=
  (s.filter isAsciiAlpha).length

/-- Vowel count of `en_vowel_ratio` from lib.rs (English vowels among
ASCII-alphabetic characters). -/
def enVowels (s : List Char) : Nat :=
  (s.filter (fun c => isAsciiAlpha c && isEnVowel c)).length

/-- Letter count of `ru_vowel_ratio` from lib.rs (`char::is_alphabetic`). -/
def ruLetters (s : List Char) : Nat :=
  (s.filter rustIsAlphabetic).length

/-- Vowel count of `ru_vowel_ratio` from lib.rs.  The source counts a Russian
vowel even without checking `is_alphabetic` (all Russian vowels are
alphabetic anyway), mirrored here. -/
def ruVowels (s : List Char) : Nat :=
  (s.filter isRuVowel).length

/-- `v / l < p / 100`, where a zero letter count reads as ratio `0` (the Rust
ratio functions return `0.0` when there are no letters). -/
def ratioLt (v l p : Nat) : Bool :=
  (if l = 0 then 0 else v * 100) < p * (if l = 0 then 1 else l)

/-- `v / l > p / 100`, zero letter count reads as ratio `0`. -/
def ratioGt (v l p : Nat) : Bool :=
  p * (if l = 0 then 1 else l) < (if l = 0 then 0 else v * 100)

/-- `v / l ≥ p / 100`, zero letter count reads as ratio `0`. -/
def ratioGe (v l p : Nat) : Bool :=
  p * (if l = 0 then 1 else l) ≤ (if l = 0 then 0 else v * 100)

/-- `is_ascii_word` from lib.rs: non-empty and all ASCII-alphabetic. -/
def is_ascii_word (s : List Char) : Bool :=
  !s.isEmpty && s.all isAsciiAlpha

/-- `map_en_to_ru` from lib.rs: ASCII-lowercase the character, then apply the
fixed QWERTY→ЙЦУКЕН table; characters that fall through the table are
returned as lowercased. -/
def map_en_to_ru (ch : Char) : Char :=
  match toAsciiLower ch with
  | 'q' => 'й'
  | 'w' => 'ц'
  | 'e' => 'у'
  | 'r' => 'к'
  | 't' => 'е'
  | 'y' => 'н'
  | 'u' => 'г'
  | 'i' => 'ш'
  | 'o' => 'щ'
  | 'p' => 'з'
  | 'a' => 'ф'
  | 's' => 'ы'
  | 'd' => 'в'
  | 'f' => 'а'
  | 'g' => 'п'
  | 'h' => 'р'
  | 'j' => 'о'
  | 'k' => 'л'
  | 'l' => 'д'
  | 'z' => 'я'
  | 'x' => 'ч'
  | 'c' => 'с'
  | 'v' => 'м'
  | 'b' => 'и'
  | 'n' => 'т'
  | 'm' => 'ь'
  | other => other

/-- The strong English bigrams hard-coded in lib.rs. -/
def strongBigrams : List (List Char) :=
  [['t', 'h'], ['s', 'h'], ['c', 'h'], ['c', 'k'],
   ['q', 'u'], ['n', 'g'], ['o', 'o'], ['e', 'e']]

/-- `has_strong_english_bigrams` from lib.rs: ASCII-lowercase the string and
look for any of the eight strong bigrams as a substring. -/
def has_strong_english_bigrams (typed : List Char) : Bool :=
  let lower := typed.map toAsciiLower
  strongBigrams.any (fun b => containsSub b lower)

/-- `looks_like_english_word` from lib.rs: an ASCII word whose English vowel
ratio lies in [0.15, 0.70] and that either contains a strong bigram or has
vowel ratio ≥ 0.25. -/
def looks_like_english_word (typed : List Char) : Bool :=
  if !is_ascii_word typed then false
  else if ratioLt (enVowels typed) (enLetters typed) 15 ||
      ratioGt (enVowels typed) (enLetters typed) 70 then false
  else has_strong_english_bigrams typed || ratioGe (enVowels typed) (enLetters typed) 25

/-- `should_autocorrect_en_to_ru` from lib.rs. -/
def should_autocorrect_en_to_ru (typed converted : List Char) : Bool :=
  if !is_ascii_word typed then false
  else if looks_like_english_word typed then false
  else ratioGe (ruVowels converted) (ruLetters converted) 20

/-- `should_autocorrect_ru_to_en` from lib.rs. -/
def should_autocorrect_ru_to_en (typed would_be_ru : List Char) : Bool :=
  if !is_ascii_word typed then false
  else if !looks_like_english_word typed then false
  else if ratioLt (ruVowels would_be_ru) (ruLetters would_be_ru) 25 then true
  else has_strong_english_bigrams typed &&
    ratioLt (ruVowels would_be_ru) (ruLetters would_be_ru) 45

/-- `primary_lang_id` from lib.rs: low ten bits of the language identifier. -/
def primary_lang_id (lang_id : Nat) : Nat :=
  lang_id &&& 0x03FF

/-- `is_cyrillic_lang_id` from lib.rs: primary id is Russian, Belarusian or
Ukrainian. -/
def is_cyrillic_lang_id (lang_id : Nat) : Bool :=
  primary_lang_id lang_id = 0x0019 || primary_lang_id lang_id = 0x0022 ||
    primary_lang_id lang_id = 0x0023

/-! ## Forbidden-context guard (src/platform/src/windows.rs) -/

/-- `ForbiddenContextsConfig` from src/shared_types/src/config.rs. -/
structure ForbiddenContextsConfig where
  blocked_processes : List (List Char)
  blocked_windows : List (List Char)
  blocked_input_types : List (List Char)
deriving DecidableEq, Repr

/-- `ActiveWindowInfo` from windows.rs: window title and optional process name. -/
structure ActiveWindowInfo where
  title : List Char
  process_name : Option (List Char)
deriving DecidableEq, Repr

/-- `contains_any` from windows.rs: Unicode-lowercase the haystack
(`str::to_lowercase()`, modelled by `rustToLower`), and test whether any
lowered, non-empty needle occurs as a substring. -/
def contains_any (haystack : List Char) (needles : List (List Char)) : Bool :=
  let hay := haystack.map rustToLower
  needles.any (fun n =>
    let needle := n.map rustToLower
    !needle.isEmpty && containsSub needle hay)

/-- `is_forbidden` from windows.rs: the title matches a blocked-windows
substring, or the process name is known and matches a blocked-processes
substring.  (The `blocked_input_types` list is not consulted.) -/
def is_forbidden (info : ActiveWindowInfo) (forbidden : ForbiddenContextsConfig) : Bool :=
  if contains_any info.title forbidden.blocked_windows then true
  else
    match info.process_name with
    | some proc_name => contains_any proc_name forbidden.blocked_processes
    | none => false

/-! ## Platform operations as environment-indexed action traces

Each OS-touching platform function of windows.rs is modelled as a function of
the outcome the guard query would have (`GuardR`) and of the success of the
raw OS calls it performs, returning the Rust result (`Except Unit Bool`
standing for `anyhow::Result<bool>`) together with the list of mutating
inputs actually sent to the OS. -/

/-- Outcome of resolving the active window and applying the forbidden-context
guard: context allowed, context forbidden (incl. a null foreground window for
`is_forbidden_context`), or the resolution itself failed with an error. -/
inductive GuardR
  | allowed
  | forbidden
  | err
deriving DecidableEq, Repr

/-- A mutating input the program can send to the OS. -/
inductive OsMutation
  | layoutChange (lang_id : Nat)
  | backspaceKeys (count : Nat)
  | unicodeText (text : List Char)
deriving DecidableEq, Repr

/-- A platform call requested by the layout-switcher module, with the
arguments it passed. -/
inductive PlatformCall
  | setLayoutReq (lang_id : Nat)
  | backspacesReq (count : Nat)
  | textReq (text : List Char)
deriving DecidableEq, Repr

/-- `set_layout_by_lang_id` from windows.rs: on guard error propagate the
error; in a forbidden context (or with a null foreground window) return
`Ok(false)` without touching the OS; otherwise, if a matching installed
layout exists, post `WM_INPUTLANGCHANGEREQUEST` (the mutation) and report
whether the post succeeded; with no matching layout return `Ok(false)`. -/
def set_layout_by_lang_id (g : GuardR) (targetFound postOk : Bool) (lang_id : Nat) :
    Except Unit Bool × List OsMutation :=
  match g with
  | .err => (.error (), [])
  | .forbidden => (.ok false, [])
  | .allowed =>
    if targetFound then (.ok postOk, [.layoutChange lang_id])
    else (.ok false, [])

/-- `send_backspaces` from windows.rs: on guard error propagate the error; in a
forbidden context return `Ok(false)` without touching the OS; a zero count is
a no-op `Ok(true)`; otherwise `SendInput` the backspace chords (the mutation)
and report whether all were sent. -/
def send_backspaces (g : GuardR) (sendOk : Bool) (count : Nat) :
    Except Unit Bool × List OsMutation :=
  match g with
  | .err => (.error (), [])
  | .forbidden => (.ok false, [])
  | .allowed =>
    if count = 0 then (.ok true, [])
    else (.ok sendOk, [.backspaceKeys count])

/-- `send_unicode_text` from windows.rs: on guard error propagate the error; in
a forbidden context return `Ok(false)` without touching the OS; empty text is
a no-op `Ok(true)`; otherwise `SendInput` the text (the mutation) and report
whether all of it was sent. -/
def send_unicode_text (g : GuardR) (sendOk : Bool) (text : List Char) :
    Except Unit Bool × List OsMutation :=
  match g with
  | .err => (.error (), [])
  | .forbidden => (.ok false, [])
  | .allowed =>
    if text.isEmpty then (.ok true, [])
    else (.ok sendOk, [.unicodeText text])

/-- Successor layout chosen by `switch_to_next_layout` in windows.rs from a
non-empty system layout list: the entry after the current one in list order,
wrapping, or the head when the current layout is not in the list. -/
def nextLayout (layouts : List Nat) (current : Nat) : Nat :=
  match layouts.findIdx? (fun hkl => hkl = current) with
  | some idx => layouts.getD ((idx + 1) % layouts.length) 0
  | none => layouts.headD 0

/-- `switch_to_next_layout` from windows.rs: on guard error propagate the
error; in a forbidden context (or with a null foreground window) return
`Ok(false)` without touching the OS; `osOk` stands for the thread-id and
layout-list queries succeeding; with a non-empty layout list, post a change
request to the wrapping successor of the current layout. -/
def switch_to_next_layout (g : GuardR) (osOk : Bool) (layouts : List Nat)
    (current : Nat) (postOk : Bool) : Except Unit Bool × List OsMutation :=
  match g with
  | .err => (.error (), [])
  | .forbidden => (.ok false, [])
  | .allowed =>
    if !osOk || layouts.isEmpty then (.ok false, [])
    else (.ok postOk, [.layoutChange (nextLayout layouts current)])

/-! ## The layout-switcher event loop (src/modules/layout_switcher/src/lib.rs)

`start` spawns a task that folds over keyboard events.  One iteration of that
loop is modelled by `stepKeyboard` below; the space-commit block (the
`0x20` arm) is `commitOnSpace`.  The OS environment an event runs against is
a record of the outcomes the platform calls would produce. -/

/-- The parts of `LayoutSwitcherConfig` the event loop reads.
`hotkeyIsAltShift` models `config.hotkey.to_lowercase() == "alt+shift"`. -/
structure LayoutSwitcherCfg where
  hotkeyIsAltShift : Bool
  auto_detect : Bool
  detect_threshold : Nat
deriving DecidableEq, Repr

/-- OS-environment of one committed word: the guard outcome seen by the
decision-time `is_forbidden_context` call and by each of the three
execution-time platform calls, the `get_active_lang_id` result (`none` for
`Err`), and the low-level success of the mutating OS calls. -/
structure OsEnv where
  guardDecision : GuardR
  guardSetLayout : GuardR
  guardBackspaces : GuardR
  guardText : GuardR
  langId : Option Nat
  layoutTargetFound : Bool
  postMessageOk : Bool
  sendBackspacesOk : Bool
  sendTextOk : Bool
deriving DecidableEq, Repr

/-- Direction of an accepted correction. -/
inductive Direction
  | enToRu
  | ruToEn
deriving DecidableEq, Repr

/-- Observable outcome of one space commit: which correction (if any) was
accepted, the platform calls requested, and the OS mutations sent. -/
structure CommitResult where
  decision : Option Direction
  calls : List PlatformCall
  muts : List OsMutation
deriving DecidableEq, Repr

/-- The commit outcome of an event that runs no correction machinery. -/
def noCommit : CommitResult := ⟨none, [], []⟩

/-- `is_all_upper_ascii` closure from `start`: has at least one ASCII letter
and every ASCII letter is uppercase. -/
def is_all_upper_ascii (s : List Char) : Bool :=
  s.any isAsciiAlpha && s.all (fun c => !isAsciiAlpha c || isAsciiUpper c)

/-- `is_mixed_case_ascii` closure from `start`: has both an ASCII-lowercase and
an ASCII-uppercase character. -/
def is_mixed_case_ascii (s : List Char) : Bool :=
  s.any isAsciiLower && s.any isAsciiUpper

/-- `min_autocorrect_len` from `start` (hard-coded `5usize`). -/
def min_autocorrect_len : Nat := 5

/-- Rust `Result`-to-`bool` of the module: `Ok(v) => v`, `Err(_) => false`
(the `match` around `send_backspaces` / `send_unicode_text`). -/
def okOrFalse : Except Unit Bool → Bool
  | .ok v => v
  | .error _ => false

/-- The space-commit block of `start` (lib.rs lines 141–307): threshold check,
fail-closed guard check, lang-id resolution with `unwrap_or(0)`, the
conservative word filter, then the direction branch; on an accepted
correction: `set_layout_by_lang_id`, `send_backspaces(len + 1)`, and — only
when the backspaces were confirmed — `send_unicode_text(converted + " ")`.
Note the source sets `commit_is_latin = !commit_is_cyrillic`, so its final
"unknown layout class" arm is unreachable and the branch is two-way. -/
def commitOnSpace (cfg : LayoutSwitcherCfg) (env : OsEnv) (word : List Char) :
    CommitResult :=
  if word.length < cfg.detect_threshold then noCommit
  else
    match env.guardDecision with
    | .forbidden => noCommit
    | .err => noCommit
    | .allowed =>
      let lang := env.langId.getD 0
      let commit_is_cyrillic := is_cyrillic_lang_id lang
      if word.length < min_autocorrect_len || is_all_upper_ascii word ||
          is_mixed_case_ascii word then noCommit
      else if !commit_is_cyrillic then
        let converted := word.map map_en_to_ru
        if should_autocorrect_en_to_ru word converted then
          let s1 := set_layout_by_lang_id env.guardSetLayout env.layoutTargetFound
            env.postMessageOk 0x0419
          let s2 := send_backspaces env.guardBackspaces env.sendBackspacesOk
            (word.length + 1)
          let erased := okOrFalse s2.1
          if erased then
            let text := converted ++ [' ']
            let s3 := send_unicode_text env.guardText env.sendTextOk text
            ⟨some .enToRu,
             [.setLayoutReq 0x0419, .backspacesReq (word.length + 1), .textReq text],
             s1.2 ++ s2.2 ++ s3.2⟩
          else
            ⟨some .enToRu,
             [.setLayoutReq 0x0419, .backspacesReq (word.length + 1)],
             s1.2 ++ s2.2⟩
        else noCommit
      else
        let would_be_ru := word.map map_en_to_ru
        if should_autocorrect_ru_to_en word would_be_ru then
          let s1 := set_layout_by_lang_id env.guardSetLayout env.layoutTargetFound
            env.postMessageOk 0x0409
          let s2 := send_backspaces env.guardBackspaces env.sendBackspacesOk
            (word.length + 1)
          let erased := okOrFalse s2.1
          if erased then
            let text := word ++ [' ']
            let s3 := send_unicode_text env.guardText env.sendTextOk text
            ⟨some .ruToEn,
             [.setLayoutReq 0x0409, .backspacesReq (word.length + 1), .textReq text],
             s1.2 ++ s2.2 ++ s3.2⟩
          else
            ⟨some .ruToEn,
             [.setLayoutReq 0x0409, .backspacesReq (word.length + 1)],
             s1.2 ++ s2.2⟩
        else noCommit

/-- Mutable state of the `start` event loop. -/
structure ModState where
  is_alt_down : Bool
  is_shift_down : Bool
  hotkey_fired : Bool
  word_keys : List Char
deriving DecidableEq, Repr

/-- `KeyboardEvent` fields the loop reads. -/
structure KeyEvent where
  vk_code : Nat
  is_key_down : Bool
deriving DecidableEq, Repr

/-- `is_letter_vk` closure from `start`: virtual keys 0x41–0x5A. -/
def is_letter_vk (vk : Nat) : Bool :=
  0x41 ≤ vk && vk ≤ 0x5A

/-- `vk_to_letter` closure from `start`: the latin letter of the key,
uppercased when Shift is held. -/
def vk_to_letter (vk : Nat) (shift : Bool) : Char :=
  let base := toAsciiLower (Char.ofNat vk)
  if shift then toAsciiUpper base else base

/-- `is_alt_vk` closure from `start`: VK_MENU and the left/right variants. -/
def is_alt_vk (vk : Nat) : Bool :=
  vk = 0x12 || vk = 0xA4 || vk = 0xA5

/-- `is_shift_vk` closure from `start`: VK_SHIFT and the left/right variants. -/
def is_shift_vk (vk : Nat) : Bool :=
  vk = 0x10 || vk = 0xA0 || vk = 0xA1

/-- Result of one loop iteration on a keyboard event: the successor state,
whether the Alt+Shift hotkey edge fired on this event, and the commit
outcome (platform calls and OS mutations are empty except on a space
commit). -/
structure StepResult where
  state : ModState
  hotkeyObserved : Bool
  commit : CommitResult
deriving DecidableEq, Repr

/-- One iteration of the `start` event loop on `AppEvent::Keyboard` (lib.rs
lines 101–324): with an unsupported hotkey the handler is inert; otherwise
update modifier state, reset the hotkey edge on a key-up that leaves the
chord, fire the hotkey edge (which performs no action — Windows itself
switches on Alt+Shift), and, when auto-detection is on and Alt is not held,
run the buffer machine: Backspace pops, Space commits then clears, Enter
clears, letters append, anything else clears. -/
def stepKeyboard (cfg : LayoutSwitcherCfg) (env : OsEnv) (st : ModState)
    (ev : KeyEvent) : StepResult :=
  if !cfg.hotkeyIsAltShift then ⟨st, false, noCommit⟩
  else
    let alt := if is_alt_vk ev.vk_code then ev.is_key_down else st.is_alt_down
    let shift := if is_shift_vk ev.vk_code then ev.is_key_down else st.is_shift_down
    if !ev.is_key_down then
      let fired := if !(alt && shift) then false else st.hotkey_fired
      ⟨⟨alt, shift, fired, st.word_keys⟩, false, noCommit⟩
    else
      let observed := alt && shift && !st.hotkey_fired
      let fired := st.hotkey_fired || observed
      let buf : List Char × CommitResult :=
        if !cfg.auto_detect then (st.word_keys, noCommit)
        else if alt then (st.word_keys, noCommit)
        else
          match ev.vk_code with
          | 0x08 => (st.word_keys.dropLast, noCommit)
          | 0x20 => ([], commitOnSpace cfg env st.word_keys)
          | 0x0D => ([], noCommit)
          | vk =>
            if is_letter_vk vk then
              (st.word_keys ++ [vk_to_letter vk shift], noCommit)
            else ([], noCommit)
      ⟨⟨alt, shift, fired, buf.1⟩, observed, buf.2⟩

/-! ## Spec-worded predicates (for comparison against the code) and
concrete configurations -/

/-- Claim C3's acceptance condition, following the spec's words: accept iff the
Latin string is non-plausible-English in the spec's stated sense (vowel
ratio outside [0.15, 0.70] AND no strong bigram) and the transliteration's
Cyrillic-vowel ratio is at least 0.20. -/
def enToRuAcceptClaim (typed converted : List Char) : Bool :=
  ((ratioLt (enVowels typed) (enLetters typed) 15 ||
    ratioGt (enVowels typed) (enLetters typed) 70) &&
      !has_strong_english_bigrams typed) &&
  ratioGe (ruVowels converted) (ruLetters converted) 20

/-- Plausible-English as the source implements it (the amended claim C3): an
ASCII word with vowel ratio inside [0.15, 0.70] that has a strong bigram or
vowel ratio ≥ 0.25. -/
def plausibleEnglishAmended (typed : List Char) : Bool :=
  is_ascii_word typed &&
    (!ratioLt (enVowels typed) (enLetters typed) 15 &&
     !ratioGt (enVowels typed) (enLetters typed) 70) &&
    (has_strong_english_bigrams typed ||
     ratioGe (enVowels typed) (enLetters typed) 25)

/-- Amended claim C3: accept iff `typed` is an ASCII word that is not
plausible-English (amended sense) and the transliteration's Cyrillic-vowel
ratio is at least 0.20. -/
def enToRuAcceptAmended (typed converted : List Char) : Bool :=
  is_ascii_word typed && !plausibleEnglishAmended typed &&
    ratioGe (ruVowels converted) (ruLetters converted) 20

/-- Claim C4's acceptance condition as written: the Latin string looks like a
plausible English word, and the transliteration's Cyrillic-vowel ratio is
below 0.25 or (a strong bigram is present and it is below 0.45). -/
def ruToEnAcceptClaim (typed would_be_ru : List Char) : Bool :=
  looks_like_english_word typed &&
    (ratioLt (ruVowels would_be_ru) (ruLetters would_be_ru) 25 ||
     (has_strong_english_bigrams typed &&
      ratioLt (ruVowels would_be_ru) (ruLetters would_be_ru) 45))

/-- Claim C8's guard, following the spec's words: any configured substring, from
any of the three block lists, matched case-insensitively against the window
title or the process name, forbids action. -/
def is_forbidden_claim (info : ActiveWindowInfo) (forbidden : ForbiddenContextsConfig) : Bool :=
  contains_any info.title
    (forbidden.blocked_processes ++ forbidden.blocked_windows ++ forbidden.blocked_input_types) ||
  (match info.process_name with
   | some proc_name => contains_any proc_name
      (forbidden.blocked_processes ++ forbidden.blocked_windows ++ forbidden.blocked_input_types)
   | none => false)

/-- `LayoutSwitcherConfig::default()` as the event loop sees it: hotkey
"alt+shift", auto-detection on, detection threshold 3. -/
def cfgDefault : LayoutSwitcherCfg := ⟨true, true, 3⟩

/-- Healthy OS environment with the English (0x0409) layout active. -/
def envLatin : OsEnv :=
  ⟨.allowed, .allowed, .allowed, .allowed, some 0x0409, true, true, true, true⟩

/-- Healthy OS environment with the Russian (0x0419) layout active. -/
def envCyr : OsEnv :=
  ⟨.allowed, .allowed, .allowed, .allowed, some 0x0419, true, true, true, true⟩

/-- OS environment in which `get_active_lang_id` fails (`Err`) while everything
else succeeds. -/
def envLangErr : OsEnv :=
  ⟨.allowed, .allowed, .allowed, .allowed, none, true, true, true, true⟩

/-- OS environment in which every guard query reports a forbidden context. -/
def envForbidden : OsEnv :=
  ⟨.forbidden, .forbidden, .forbidden, .forbidden, some 0x0409, true, true, true, true⟩

/-! ## Helper lemmas -/

theorem toNat_ofNat_of_small {n : Nat} (h : n < 0xd800) : (Char.ofNat n).toNat = n := by
  have hv : n.isValidChar := Or.inl h
  rw [Char.ofNat, dif_pos hv]
  rfl

theorem toAsciiLower_toNat {c : Char} (h : isAsciiUpper c = true) :
    (toAsciiLower c).toNat = c.toNat + 32 := by
  have hb : 65 ≤ c.toNat ∧ c.toNat ≤ 90 := by
    simpa [isAsciiUpper, Bool.and_eq_true, decide_eq_true_eq] using h
  unfold toAsciiLower
  rw [if_pos h]
  exact toNat_ofNat_of_small (by omega)

theorem toAsciiLower_of_not_upper {c : Char} (h : isAsciiUpper c = false) :
    toAsciiLower c = c := by
  unfold toAsciiLower
  rw [h]
  simp

theorem isAsciiUpper_toAsciiLower (c : Char) : isAsciiUpper (toAsciiLower c) = false := by
  cases hc : isAsciiUpper c
  · rw [toAsciiLower_of_not_upper hc]
    exact hc
  · have ht := toAsciiLower_toNat hc
    have hb : 65 ≤ c.toNat ∧ c.toNat ≤ 90 := by
      simpa [isAsciiUpper, Bool.and_eq_true, decide_eq_true_eq] using hc
    simp [isAsciiUpper, ht]
    omega

theorem toAsciiLower_idem (c : Char) : toAsciiLower (toAsciiLower c) = toAsciiLower c :=
  toAsciiLower_of_not_upper (isAsciiUpper_toAsciiLower c)

theorem map_en_to_ru_toAsciiLower (c : Char) :
    map_en_to_ru (toAsciiLower c) = map_en_to_ru c := by
  unfold map_en_to_ru
  rw [toAsciiLower_idem]

theorem map_en_to_ru_of_not_alpha {c : Char} (h : isAsciiAlpha c = false) :
    map_en_to_ru c = c := by
  have hu : isAsciiUpper c = false := by
    unfold isAsciiAlpha at h
    cases hq : isAsciiUpper c <;> simp [hq] at h ⊢
  have hl : toAsciiLower c = c := toAsciiLower_of_not_upper hu
  unfold map_en_to_ru
  rw [hl]
  split
  all_goals try rfl
  all_goals exact absurd h (by decide)

theorem looks_ascii {typed : List Char} (h : looks_like_english_word typed = true) :
    is_ascii_word typed = true := by
  unfold looks_like_english_word at h
  cases ha : is_ascii_word typed
  · rw [ha] at h
    simp at h
  · rfl

theorem should_ru_to_en_eq_claim (typed ru : List Char) :
    should_autocorrect_ru_to_en typed ru = ruToEnAcceptClaim typed ru := by
  unfold should_autocorrect_ru_to_en ruToEnAcceptClaim
  cases h1 : is_ascii_word typed
  · have h2 : looks_like_english_word typed = false := by
      cases h : looks_like_english_word typed
      · rfl
      · rw [looks_ascii h] at h1
        exact absurd h1 (by simp)
    simp [h1, h2]
  · cases h2 : looks_like_english_word typed <;>
    cases h3 : ratioLt (ruVowels ru) (ruLetters ru) 25 <;>
    cases h4 : has_strong_english_bigrams typed <;>
    cases h5 : ratioLt (ruVowels ru) (ruLetters ru) 45 <;>
    simp [h1, h2, h3, h4, h5]

theorem contains_any_iff (hay : List Char) (needles : List (List Char)) :
    contains_any hay needles = true ↔
      ∃ n ∈ needles, n ≠ [] ∧
        containsSub (n.map rustToLower) (hay.map rustToLower) = true := by
  unfold contains_any
  simp only [List.any_eq_true, Bool.and_eq_true, Bool.not_eq_true']
  constructor
  · rintro ⟨n, hn, hne, hsub⟩
    refine ⟨n, hn, ?_, hsub⟩
    intro hnil
    subst hnil
    simp at hne
  · rintro ⟨n, hn, hne, hsub⟩
    refine ⟨n, hn, ?_, hsub⟩
    cases n
    · exact absurd rfl hne
    · rfl

theorem commitOnSpace_guard_blocked (cfg : LayoutSwitcherCfg) (env : OsEnv)
    (word : List Char) (h : env.guardDecision ≠ .allowed) :
    commitOnSpace cfg env word = noCommit := by
  unfold commitOnSpace
  split
  · rfl
  · split
    · rfl
    · rfl
    · rename_i hg
      exact absurd hg h

theorem step_space_commit (cfg : LayoutSwitcherCfg) (env : OsEnv) (st : ModState)
    (hcfg : cfg.hotkeyIsAltShift = true) (had : cfg.auto_detect = true)
    (halt : st.is_alt_down = false) :
    (stepKeyboard cfg env st ⟨0x20, true⟩).commit = commitOnSpace cfg env st.word_keys ∧
    (stepKeyboard cfg env st ⟨0x20, true⟩).state.word_keys = [] := by
  simp [stepKeyboard, hcfg, had, halt, is_alt_vk, is_shift_vk]

theorem step_keydown_observed (cfg : LayoutSwitcherCfg) (env : OsEnv) (st : ModState)
    (ev : KeyEvent) (hcfg : cfg.hotkeyIsAltShift = true) (hdown : ev.is_key_down = true) :
    (stepKeyboard cfg env st ev).hotkeyObserved =
      ((is_alt_vk ev.vk_code || st.is_alt_down) &&
       ((is_shift_vk ev.vk_code || st.is_shift_down) && !st.hotkey_fired)) ∧
    (stepKeyboard cfg env st ev).state.hotkey_fired =
      (st.hotkey_fired ||
        ((is_alt_vk ev.vk_code || st.is_alt_down) &&
         ((is_shift_vk ev.vk_code || st.is_shift_down) && !st.hotkey_fired))) := by
  simp only [stepKeyboard, hcfg, hdown]
  constructor <;> simp [Bool.and_assoc]

theorem step_keydown_alt_inert (cfg : LayoutSwitcherCfg) (env : OsEnv) (st : ModState)
    (ev : KeyEvent) (hcfg : cfg.hotkeyIsAltShift = true) (hdown : ev.is_key_down = true)
    (halt2 : (is_alt_vk ev.vk_code || st.is_alt_down) = true) :
    (stepKeyboard cfg env st ev).commit = noCommit := by
  simp only [stepKeyboard, hcfg, hdown]
  simp [halt2]

theorem step_keyup_release_resets (cfg : LayoutSwitcherCfg) (env : OsEnv) (st : ModState)
    (ev : KeyEvent) (hcfg : cfg.hotkeyIsAltShift = true) (hup : ev.is_key_down = false)
    (hmod : is_alt_vk ev.vk_code = true ∨ is_shift_vk ev.vk_code = true) :
    (stepKeyboard cfg env st ev).state.hotkey_fired = false := by
  simp only [stepKeyboard, hcfg, hup]
  rcases hmod with hm | hm <;> simp [hm]

/-! ## The claims -/

/-- Claim C1 (code bug evidence): when `get_active_lang_id` fails, the module's
`unwrap_or(0)` maps the error to language id 0, which `is_cyrillic_lang_id`
classifies as non-Cyrillic, hence as a Latin commit class; committing
"ghbdtn" under a failed language query therefore yields an `EnToRu`
correction and OS mutations (layout switch, 7 backspaces, text injection) —
the claim says a language-query failure must be treated as no-action and
never as a Latin commit class. -/
theorem claim1_lang_error_treated_as_latin :
    (commitOnSpace cfgDefault envLangErr "ghbdtn".data).decision = some .enToRu ∧
    (commitOnSpace cfgDefault envLangErr "ghbdtn".data).muts =
      [.layoutChange 0x0419, .backspaceKeys 7, .unicodeText "привет ".data] ∧
    is_cyrillic_lang_id 0 = false := by decide

/-- Claim C2: for a committed word whose forbidden-context guard uniformly
reports "forbidden" or errors (one outcome `g ≠ allowed` for the
decision-time query and for each execution-time query), a space commit
produces no OS mutation and discards the word buffer; moreover each of the
three mutating platform calls is individually fail-closed: under a
non-allowed guard outcome it sends nothing to the OS. -/
theorem claim2_forbidden_context_no_mutation (cfg : LayoutSwitcherCfg) (env : OsEnv)
    (st : ModState) (g g' : GuardR) (targetFound postOk sendOk sendOk2 : Bool)
    (lang_id count : Nat) (text : List Char)
    (hcfg : cfg.hotkeyIsAltShift = true) (had : cfg.auto_detect = true)
    (halt : st.is_alt_down = false)
    (h1 : env.guardDecision = g) (hg : g ≠ .allowed) (hg' : g' ≠ .allowed) :
    (stepKeyboard cfg env st ⟨0x20, true⟩).commit.muts = [] ∧
    (stepKeyboard cfg env st ⟨0x20, true⟩).state.word_keys = [] ∧
    (set_layout_by_lang_id g' targetFound postOk lang_id).2 = [] ∧
    (send_backspaces g' sendOk count).2 = [] ∧
    (send_unicode_text g' sendOk2 text).2 = [] := by
  obtain ⟨hc, hk⟩ := step_space_commit cfg env st hcfg had halt
  refine ⟨?_, hk, ?_, ?_, ?_⟩
  · rw [hc, commitOnSpace_guard_blocked cfg env st.word_keys (h1 ▸ hg)]
    rfl
  · cases g' <;> simp [set_layout_by_lang_id] at hg' ⊢
  · cases g' <;> simp [send_backspaces] at hg' ⊢
  · cases g' <;> simp [send_unicode_text] at hg' ⊢

/-- Witness for claim C2 at a concrete forbidden environment. -/
theorem claim2_witness :
    (stepKeyboard cfgDefault envForbidden ⟨false, false, false, "ghbdtn".data⟩
      ⟨0x20, true⟩).commit.muts = [] ∧
    (stepKeyboard cfgDefault envForbidden ⟨false, false, false, "ghbdtn".data⟩
      ⟨0x20, true⟩).state.word_keys = [] ∧
    (set_layout_by_lang_id .forbidden true true 0x0419).2 = [] ∧
    (send_backspaces .forbidden true 7).2 = [] ∧
    (send_unicode_text .forbidden true "привет ".data).2 = [] :=
  claim2_forbidden_context_no_mutation cfgDefault envForbidden
    ⟨false, false, false, "ghbdtn".data⟩ .forbidden .forbidden true true true true
    0x0419 7 "привет ".data rfl rfl rfl rfl (by decide) (by decide)

/-- Claim C3 counterexample: for the word "edfbd" (vowel ratio 0.2 inside
[0.15, 0.70], no strong bigram, so ratio < 0.25), the code accepts the
EnToRu correction while the claim's stated criterion (non-plausibility
requires the vowel ratio to be outside the interval) rejects it. -/
theorem claim3_counterexample :
    should_autocorrect_en_to_ru "edfbd".data ("edfbd".data.map map_en_to_ru) = true ∧
    enToRuAcceptClaim "edfbd".data ("edfbd".data.map map_en_to_ru) = false := by decide

/-- Claim C3 amended: `should_autocorrect_en_to_ru` accepts exactly when the
typed string is a pure-ASCII-letter word, is not plausible-English in the
code's sense (vowel ratio inside [0.15, 0.70] AND (strong bigram present OR
vowel ratio ≥ 0.25)), and the transliteration's Cyrillic-vowel ratio is at
least 0.20. -/
theorem claim3_amended_accept_iff (typed conv : List Char) :
    should_autocorrect_en_to_ru typed conv = enToRuAcceptAmended typed conv := by
  unfold should_autocorrect_en_to_ru enToRuAcceptAmended plausibleEnglishAmended
    looks_like_english_word
  cases h1 : is_ascii_word typed <;>
  cases h2 : ratioLt (enVowels typed) (enLetters typed) 15 <;>
  cases h3 : ratioGt (enVowels typed) (enLetters typed) 70 <;>
  cases h4 : has_strong_english_bigrams typed <;>
  cases h5 : ratioGe (enVowels typed) (enLetters typed) 25 <;>
  simp [h1, h2, h3, h4, h5]

/-- Claim C4: `should_autocorrect_ru_to_en` accepts exactly when the buffered
Latin string looks like a plausible English word and (the transliteration's
Cyrillic-vowel ratio is < 0.25, or a strong bigram is present and that ratio
is < 0.45); concretely, "hello" committed with Cyrillic active yields a
RuToEn decision injecting "hello ", and "ghbdtn" committed with Latin
active yields an EnToRu decision injecting "привет ". -/
theorem claim4_accept_iff (typed would_be_ru : List Char) :
    should_autocorrect_ru_to_en typed would_be_ru = ruToEnAcceptClaim typed would_be_ru ∧
    (commitOnSpace cfgDefault envCyr "hello".data).decision = some .ruToEn ∧
    (commitOnSpace cfgDefault envCyr "hello".data).calls =
      [.setLayoutReq 0x0409, .backspacesReq 6, .textReq "hello ".data] ∧
    (commitOnSpace cfgDefault envLatin "ghbdtn".data).decision = some .enToRu ∧
    (commitOnSpace cfgDefault envLatin "ghbdtn".data).calls =
      [.setLayoutReq 0x0419, .backspacesReq 7, .textReq "привет ".data] :=
  ⟨should_ru_to_en_eq_claim typed would_be_ru, by decide, by decide, by decide, by decide⟩

/-- Claim C5 counterexample: the transliteration does not preserve case —
uppercase 'G' and lowercase 'g' both map to the lowercase Cyrillic 'п'
(never to the uppercase 'П'). -/
theorem claim5_counterexample :
    map_en_to_ru 'g' = 'п' ∧ map_en_to_ru 'G' = 'п' ∧ 'G' ≠ 'g' ∧ 'п' ≠ 'П' := by decide

/-- Claim C5 amended: `map_en_to_ru` is a pure per-character function that
ASCII-lowercases its input first (so it is case-insensitive rather than
case-preserving), maps characters outside the 26 ASCII letters to
themselves, maps the empty string to itself, maps "ghbdtn" to "привет"
character-for-character, and is 1-to-1 on the 26 lowercase Latin letters. -/
theorem claim5_amended_map_properties (c d : Char) (h : isAsciiAlpha c = false) :
    map_en_to_ru c = c ∧
    map_en_to_ru (toAsciiLower d) = map_en_to_ru d ∧
    ([] : List Char).map map_en_to_ru = [] ∧
    "ghbdtn".data.map map_en_to_ru = "привет".data ∧
    ("qwertyuiopasdfghjklzxcvbnm".data.map map_en_to_ru).Nodup :=
  ⟨map_en_to_ru_of_not_alpha h, map_en_to_ru_toAsciiLower d, by decide, by decide, by decide⟩

/-- Witness for the amended claim C5 at the non-letter '1' and at 'G'. -/
theorem claim5_witness :
    isAsciiAlpha '1' = false ∧ map_en_to_ru '1' = '1' ∧
    map_en_to_ru (toAsciiLower 'G') = map_en_to_ru 'G' :=
  ⟨by decide, (claim5_amended_map_properties '1' 'G' (by decide)).1,
   (claim5_amended_map_properties '1' 'G' (by decide)).2.1⟩

/-- Claim C6: a committed word that is shorter than the fixed minimum
auto-correct length (5), or all-uppercase ASCII, or mixed-case ASCII, never
produces a decision (and causes no platform call or OS mutation), whatever
the heuristic scores and environment. -/
theorem claim6_filter_no_decision (cfg : LayoutSwitcherCfg) (env : OsEnv)
    (word : List Char)
    (h : word.length < min_autocorrect_len ∨ is_all_upper_ascii word = true ∨
      is_mixed_case_ascii word = true) :
    commitOnSpace cfg env word = noCommit := by
  simp only [commitOnSpace]
  split
  · rfl
  · split
    · rfl
    · rfl
    · have hc : (decide (word.length < min_autocorrect_len) || is_all_upper_ascii word ||
          is_mixed_case_ascii word) = true := by
        rcases h with h | h | h <;> simp [h]
      rw [if_pos hc]

/-- Witness for claim C6 at the all-uppercase word "HELLO". -/
theorem claim6_witness :
    is_all_upper_ascii "HELLO".data = true ∧
    commitOnSpace cfgDefault envLatin "HELLO".data = noCommit :=
  ⟨by decide, claim6_filter_no_decision cfgDefault envLatin "HELLO".data
    (Or.inr (Or.inl (by decide)))⟩

/-- Claim C7: whenever a correction is executed (either direction), the
backspace count requested from the platform equals the buffered word length
plus one; conversely, every backspace request the commit makes carries
exactly that count. -/
theorem claim7_backspace_count (cfg : LayoutSwitcherCfg) (env : OsEnv)
    (word : List Char) (n : Nat) (d : Direction) :
    (PlatformCall.backspacesReq n ∈ (commitOnSpace cfg env word).calls →
      n = word.length + 1) ∧
    ((commitOnSpace cfg env word).decision = some d →
      PlatformCall.backspacesReq (word.length + 1) ∈ (commitOnSpace cfg env word).calls) := by
  simp only [commitOnSpace]
  repeat' split
  all_goals constructor
  all_goals intro h
  all_goals simp [noCommit] at h ⊢
  all_goals omega

/-- Witness for claim C7 at the executed correction for "ghbdtn". -/
theorem claim7_witness :
    ((commitOnSpace cfgDefault envLatin "ghbdtn".data).decision = some .enToRu →
      PlatformCall.backspacesReq ("ghbdtn".data.length + 1) ∈
        (commitOnSpace cfgDefault envLatin "ghbdtn".data).calls) ∧
    (7 : Nat) = "ghbdtn".data.length + 1 :=
  ⟨(claim7_backspace_count cfgDefault envLatin "ghbdtn".data 7 .enToRu).2,
   (claim7_backspace_count cfgDefault envLatin "ghbdtn".data 7 .enToRu).1 (by decide)⟩

/-- Claim C8 counterexample: a substring configured in `blocked_input_types`
("cmd") matches the window title case-insensitively, so the claim's guard
forbids, but the code's `is_forbidden` ignores `blocked_input_types`
entirely and allows. -/
theorem claim8_counterexample :
    is_forbidden_claim ⟨"cmd".data, none⟩ ⟨[], [], ["cmd".data]⟩ = true ∧
    is_forbidden ⟨"cmd".data, none⟩ ⟨[], [], ["cmd".data]⟩ = false := by decide

/-- Claim C8 amended: `is_forbidden` returns true iff a non-empty
blocked-windows substring occurs case-insensitively (under Unicode
lowercasing, as Rust's `to_lowercase`) in the window title, or the process
name is known and a non-empty blocked-processes substring occurs
case-insensitively in it; `blocked_input_types` is never consulted and
empty substrings never match.  The closing conjunct shows the
case-insensitivity is genuinely Unicode: the Cyrillic title "ПАРОЛЬ" is
forbidden by the lowercase needle "пароль". -/
theorem claim8_amended_iff (info : ActiveWindowInfo) (cfg : ForbiddenContextsConfig) :
    (is_forbidden info cfg = true ↔
      ((∃ n ∈ cfg.blocked_windows, n ≠ [] ∧
          containsSub (n.map rustToLower) (info.title.map rustToLower) = true) ∨
       (∃ p, info.process_name = some p ∧ ∃ n ∈ cfg.blocked_processes, n ≠ [] ∧
          containsSub (n.map rustToLower) (p.map rustToLower) = true))) ∧
    is_forbidden ⟨"ПАРОЛЬ".data, none⟩ ⟨[], ["пароль".data], []⟩ = true := by
  refine ⟨?_, by decide⟩
  unfold is_forbidden
  by_cases hw : contains_any info.title cfg.blocked_windows = true
  · rw [if_pos hw]
    simp only [true_iff]
    exact Or.inl ((contains_any_iff _ _).1 hw)
  · rw [if_neg hw]
    rcases hp : info.process_name with _ | p
    · simp only [Bool.false_eq_true, false_iff]
      rintro (hc | ⟨p, hps, _⟩)
      · exact hw ((contains_any_iff _ _).2 hc)
      · simp at hps
    · rw [contains_any_iff]
      constructor
      · intro hc
        exact Or.inr ⟨p, rfl, hc⟩
      · rintro (hc | ⟨q, hq, hcc⟩)
        · exact absurd ((contains_any_iff _ _).2 hc) hw
        · cases hq
          exact hcc

/-- Claim C9 counterexample: a concrete Alt+Shift press (Alt held, Shift
key-down) fires the hotkey edge, yet the module requests no platform call
and sends no OS mutation — in particular no guard-checked layout advance —
because the module deliberately leaves the switching to Windows itself. -/
theorem claim9_counterexample :
    (stepKeyboard cfgDefault envLatin ⟨true, false, false, []⟩ ⟨0x10, true⟩).hotkeyObserved
        = true ∧
    (stepKeyboard cfgDefault envLatin ⟨true, false, false, []⟩ ⟨0x10, true⟩).commit.calls
        = [] ∧
    (stepKeyboard cfgDefault envLatin ⟨true, false, false, []⟩ ⟨0x10, true⟩).commit.muts
        = [] := by decide

/-- Claim C9 amended: the Alt+Shift edge fires once per press (marking the
state fired; a press while already fired does not re-fire) and resets when
either modifier is released; an event on which the edge fires performs no
commit, no platform call and no OS mutation (Windows itself performs the
Alt+Shift switch); the platform function `switch_to_next_layout` — which
the hotkey path never invokes — mutates nothing under a non-allowed guard
and otherwise advances to the wrapping successor of the current layout in
system list order, as the concrete wrap equations illustrate. -/
theorem claim9_amended_hotkey (cfg : LayoutSwitcherCfg) (env : OsEnv) (st : ModState)
    (ev evUp : KeyEvent) (g' : GuardR) (osOk : Bool) (layouts : List Nat)
    (current : Nat) (postOk : Bool)
    (hcfg : cfg.hotkeyIsAltShift = true)
    (hdown : ev.is_key_down = true)
    (hup : evUp.is_key_down = false)
    (hmod : is_alt_vk evUp.vk_code = true ∨ is_shift_vk evUp.vk_code = true)
    (hg : g' ≠ .allowed) :
    ((stepKeyboard cfg env st ev).hotkeyObserved = true →
      (stepKeyboard cfg env st ev).state.hotkey_fired = true ∧
      (stepKeyboard cfg env st ev).commit = noCommit) ∧
    (st.hotkey_fired = true → (stepKeyboard cfg env st ev).hotkeyObserved = false) ∧
    (stepKeyboard cfg env st evUp).state.hotkey_fired = false ∧
    (switch_to_next_layout g' osOk layouts current postOk).2 = [] ∧
    (switch_to_next_layout .allowed true layouts current postOk =
      if layouts.isEmpty then (.ok false, [])
      else (.ok postOk, [.layoutChange (nextLayout layouts current)])) ∧
    nextLayout [10, 20, 30] 10 = 20 ∧ nextLayout [10, 20, 30] 30 = 10 ∧
    nextLayout [10, 20, 30] 99 = 10 := by
  obtain ⟨hobs, hfired⟩ := step_keydown_observed cfg env st ev hcfg hdown
  refine ⟨?_, ?_, step_keyup_release_resets cfg env st evUp hcfg hup hmod, ?_, ?_,
    by decide, by decide, by decide⟩
  · intro ho
    rw [hobs] at ho
    have halt2 : (is_alt_vk ev.vk_code || st.is_alt_down) = true := by
      cases hx : (is_alt_vk ev.vk_code || st.is_alt_down)
      · rw [hx] at ho
        simp at ho
      · rfl
    refine ⟨?_, step_keydown_alt_inert cfg env st ev hcfg hdown halt2⟩
    rw [hfired, ho]
    simp
  · intro hf
    rw [hobs, hf]
    simp
  · cases g' <;> simp [switch_to_next_layout] at hg ⊢
  · simp [switch_to_next_layout]

/-- Witness for the amended claim C9 at concrete presses, releases and layout
lists. -/
theorem claim9_witness :
    (stepKeyboard cfgDefault envLatin ⟨true, false, true, []⟩ ⟨0x41, true⟩).hotkeyObserved
        = false ∧
    (stepKeyboard cfgDefault envLatin ⟨true, true, true, []⟩ ⟨0x12, false⟩).state.hotkey_fired
        = false ∧
    (switch_to_next_layout .forbidden true [10, 20, 30] 20 true).2 = [] ∧
    nextLayout [10, 20, 30] 30 = 10 :=
  ⟨((claim9_amended_hotkey cfgDefault envLatin ⟨true, false, true, []⟩ ⟨0x41, true⟩
      ⟨0x12, false⟩ .forbidden true [10, 20, 30] 20 true rfl rfl rfl
      (Or.inl (by decide)) (by decide)).2.1 rfl),
   (claim9_amended_hotkey cfgDefault envLatin ⟨true, true, true, []⟩ ⟨0x41, true⟩
      ⟨0x12, false⟩ .forbidden true [10, 20, 30] 20 true rfl rfl rfl
      (Or.inl (by decide)) (by decide)).2.2.1,
   (claim9_amended_hotkey cfgDefault envLatin ⟨true, false, true, []⟩ ⟨0x41, true⟩
      ⟨0x12, false⟩ .forbidden true [10, 20, 30] 20 true rfl rfl rfl
      (Or.inl (by decide)) (by decide)).2.2.2.1,
   (claim9_amended_hotkey cfgDefault envLatin ⟨true, false, true, []⟩ ⟨0x41, true⟩
      ⟨0x12, false⟩ .forbidden true [10, 20, 30] 20 true rfl rfl rfl
      (Or.inl (by decide)) (by decide)).2.2.2.2.2.2.1⟩

/-- Claim C10: while Alt is held, any key-down event leaves the word buffer
unchanged and triggers no commit — no decision, no platform call, no OS
mutation; in particular Space does not commit and Backspace does not pop. -/
theorem claim10_alt_held_inert (cfg : LayoutSwitcherCfg) (env : OsEnv)
    (st : ModState) (ev : KeyEvent)
    (halt : st.is_alt_down = true) (hdown : ev.is_key_down = true) :
    (stepKeyboard cfg env st ev).state.word_keys = st.word_keys ∧
    (stepKeyboard cfg env st ev).commit = noCommit := by
  unfold stepKeyboard
  cases hc : cfg.hotkeyIsAltShift
  · simp
  · simp [hdown, halt]

/-- Witness for claim C10: with Alt held, a Space key-down leaves the buffered
word "gh" untouched and commits nothing. -/
theorem claim10_witness :
    (stepKeyboard cfgDefault envLatin ⟨true, false, false, "gh".data⟩
      ⟨0x20, true⟩).state.word_keys = "gh".data ∧
    (stepKeyboard cfgDefault envLatin ⟨true, false, false, "gh".data⟩
      ⟨0x20, true⟩).commit = noCommit :=
  claim10_alt_held_inert cfgDefault envLatin ⟨true, false, false, "gh".data⟩ ⟨0x20, true⟩
    rfl rfl

end SmartSwitcher
